import Mathlib

/-!
Shallow embedding of the `social-accessibility-score-worker` Cloudflare worker.

The repository contains two revisions of the scheduled ingestion pipeline:
the current `src/index.ts` (no concurrency limiter, no guard on the average,
the notification call is awaited) and the semaphore revision in the unnamed
source file (limiter, `NaN` guard on the aggregate write, `ctx.waitUntil` on
the notification).  Both are embedded below as `scheduled` and
`scheduledLimited` over the same world of upstream responses.

Modelling conventions:
- an outbound HTTP call is a `Fetched` value: `netError` when the `fetch`
  promise itself rejects, otherwise a response with an `ok` flag and a body
  that is `none` when `response.json()` rejects (malformed payload);
- the KV store maps string keys to stored strings; a stored string is
  modelled by `StoredVal`: `num q` stands for a string whose JS
  `Number(...)` conversion is the (non-`NaN`) number `q` (scores are written
  with `score.toString()` and round-trip), `text s` stands for a string
  whose `Number(...)` conversion is `NaN` (ISO timestamps, the literal
  string "NaN");
- `Number(null)` is `0` in JS, which `jsNumber` reflects for a missing key;
- JSON numbers are modelled as rationals; `toFixed(2)` is modelled by
  rounding to two decimals (`toFixed2`), and the formatted string it
  produces is represented by `StoredVal.num` of the rounded value;
- the `score` field of the score payload is `some q` when it is a JSON
  number and `none` when it is absent or `null`/`undefined` (in which case
  `scoreData.score.toString()` throws);
- the concurrent fan-out of `Promise.all` over repositories is modelled by
  one sequential interleaving in listing order; distinct repositories write
  distinct keys, so the final store does not depend on the interleaving,
  and a rejected task makes the whole fan-out reject while the remaining
  task effects still land.
-/

namespace AccessWorker

/-- Model of a JavaScript/JSON value, as far as the worker inspects one. -/
inductive JsVal where
  | undefined
  | null
  | bool (b : Bool)
  | num (q : ℚ)
  | str (s : String)
  | obj (fields : List (String × JsVal))

/-- Property access `v[k]`: field lookup on objects; `undefined` on
primitives (the worker only dereferences object or primitive receivers on
the paths modelled here). -/
def jsGetField : JsVal → String → JsVal
  | .obj fields, k => ((fields.find? (fun p => p.1 == k)).map (fun p => p.2)).getD .undefined
  | _, _ => .undefined

/-- JS truthiness, used for `recordData.value || {}`. -/
def jsTruthy : JsVal → Bool
  | .undefined => false
  | .null => false
  | .bool b => b
  | .num q => !(q == 0)
  | .str s => !(s == "")
  | .obj _ => true

/-- Strict equality test `v === undefined`. -/
def isUndefined : JsVal → Bool
  | .undefined => true
  | _ => false

/-- Strict equality test `v === true`: only the boolean `true` passes. -/
def strictEqTrue : JsVal → Bool
  | .bool b => b
  | _ => false

/-- Strict equality test `v === "RecordNotFound"`. -/
def isRecordNotFound : JsVal → Bool
  | .str s => s == "RecordNotFound"
  | _ => false

/-- A stored KV string, classified by its JS `Number(...)` conversion:
`num q` is a numeric string with value `q`, `text s` is a string (such as an
ISO timestamp or the literal "NaN") whose conversion is `NaN`. -/
inductive StoredVal where
  | num (q : ℚ)
  | text (s : String)
  deriving DecidableEq

/-- The KV namespace: an association list, most recent write first. -/
abbrev Store := List (String × StoredVal)

/-- KV `get`: the most recently written value for the key, or absent. -/
def kvGet (s : Store) (k : String) : Option StoredVal :=
  ((List.find? (fun p => p.1 == k) s).map (fun p => p.2))

/-- KV `put`: last write wins. -/
def kvPut (s : Store) (k : String) (v : StoredVal) : Store :=
  (k, v) :: s

/-- One entry of the repository listing. -/
structure Repo where
  did : String
  active : Bool
  deriving DecidableEq

/-- Outcome of one outbound `fetch`: the promise rejects (`netError`), or a
response arrives with an `ok` flag and a parsed JSON body, `none` when
`response.json()` rejects. -/
inductive Fetched (α : Type) where
  | netError
  | resp (ok : Bool) (body : Option α)

/-- Upstream environment of one run: the listing response, the
participation-lookup and score responses per did, the notification
response, and the timestamp the run would store. -/
structure World where
  reposResp : Fetched (Option (List Repo))
  partResp : String → Fetched (List (String × JsVal))
  scoreResp : String → Fetched (Option ℚ)
  notifyResp : Fetched Unit
  now : String

/-- Result of one scheduled run: the final store, whether the handler ran
to the end of the `try` block (terminal state `Completed`), and how many
times `notifyDiscord` was invoked. -/
structure RunResult where
  store : Store
  completed : Bool
  notifyCalls : Nat
  deriving DecidableEq

/-- Embeds `const profile = recordData.value || {}` followed by
`profile.pdsPreferences?.accessibilityScoring`: the preference value the
lookup resolved to, `undefined` when any link of the chain is missing. -/
def resolvePreference (recordData : List (String × JsVal)) : JsVal :=
  let value := jsGetField (.obj recordData) "value"
  let profile := if jsTruthy value then value else JsVal.obj []
  let prefs := jsGetField profile "pdsPreferences"
  match prefs with
  | .undefined => JsVal.undefined
  | .null => JsVal.undefined
  | p => jsGetField p "accessibilityScoring"

/-- Embeds `validateParticipation` of `src/index.ts` (and the
behaviourally identical `validateParticipationWithLimit` of the unnamed
file; `errorData.error` versus `errorData?.error` makes no observable
difference because the surrounding `try` swallows the exception).
An `error` result is an exception propagating out of the function, which
happens when the lookup `fetch` rejects or when a success response has a
malformed body. -/
def validateParticipation (resp : Fetched (List (String × JsVal))) : Except Unit Bool :=
  match resp with
  | .netError => .error ()
  | .resp ok body =>
    if !ok then
      match body with
      | some errorData =>
        if isRecordNotFound (jsGetField (.obj errorData) "error") then
          .ok true
        else
          .ok true
      | none => .ok true
    else
      match body with
      | none => .error ()
      | some recordData =>
        let preference := resolvePreference recordData
        if isUndefined preference then .ok true
        else .ok (strictEqTrue preference)

/-- Embeds `notifyDiscord`: one POST to the webhook, throwing on a
rejected fetch or a non-success status. -/
def notifyDiscord (resp : Fetched Unit) : Except Unit Unit :=
  match resp with
  | .netError => .error ()
  | .resp ok _ => if ok then .ok () else .error ()

/-- Per-repository task of the fan-out (the body of `repos.map`):
returns the store after the task and whether the task rejected. -/
def processRepo (w : World) (s : Store) (r : Repo) : Store × Bool :=
  if !r.active then (s, false)
  else
    match validateParticipation (w.partResp r.did) with
    | .error _ => (s, true)
    | .ok participates =>
      if !participates then (s, false)
      else
        match w.scoreResp r.did with
        | .netError => (s, true)
        | .resp ok body =>
          if !ok then (s, false)
          else
            match body with
            | none => (s, true)
            | some none => (s, true)
            | some (some q) => (kvPut s r.did (StoredVal.num q), false)

/-- Fan-out over the listing, one sequential interleaving: the resulting
store and whether any task rejected (rejecting `Promise.all`). -/
def runFanout (w : World) : Store → List Repo → Store × Bool
  | s, [] => (s, false)
  | s, r :: rs =>
    let p := processRepo w s r
    let rest := runFanout w p.1 rs
    (rest.1, p.2 || rest.2)

/-- JS `Number(...)` of a KV `get` result, `none` standing for `NaN`:
a missing key gives `Number(null) = 0`. -/
def jsNumber : Option StoredVal → Option ℚ
  | none => some 0
  | some (.num q) => some q
  | some (.text _) => none

/-- The `numericScores` list of the aggregate step: read every listed did
back from the store, convert with `Number`, and drop the `NaN` entries. -/
def numericScores (s : Store) (repos : List Repo) : List ℚ :=
  repos.filterMap (fun r => jsNumber (kvGet s r.did))

/-- Model of `avg.toFixed(2)`: round to two decimal places. -/
def toFixed2 (q : ℚ) : ℚ := ((⌊q * 100 + 1 / 2⌋ : ℤ) : ℚ) / 100

/-- Embeds the `scheduled` handler of `src/index.ts`: list, fan-out,
aggregate with no guard on an empty participant set (`0/0` is JS `NaN` and
`NaN.toFixed(2)` is the string "NaN"), unconditional aggregate and
timestamp writes, then an awaited `notifyDiscord` whose failure lands in
the run-level `catch`. -/
def scheduled (w : World) (s : Store) : RunResult :=
  match w.reposResp with
  | .netError => ⟨s, false, 0⟩
  | .resp ok body =>
    if !ok then ⟨s, false, 0⟩
    else
      match body with
      | none => ⟨s, false, 0⟩
      | some reposField =>
        let repos := reposField.getD []
        let fo := runFanout w s repos
        if fo.2 then ⟨fo.1, false, 0⟩
        else
          let numeric := numericScores fo.1 repos
          let agg : StoredVal :=
            if numeric.length = 0 then .text "NaN"
            else .num (toFixed2 (numeric.sum / (numeric.length : ℚ)))
          let s3 := kvPut (kvPut fo.1 "pdsAccessibilityScore" agg) "lastUpdated" (.text w.now)
          ⟨s3, (notifyDiscord w.notifyResp).toBool, 1⟩

/-- Embeds the `scheduled` handler of the semaphore revision in the
unnamed source file: same list and fan-out, but the average is `NaN` on an
empty participant set and the aggregate key is written only when the
average is not `NaN`; the timestamp is written unconditionally and the
notification is handed to `ctx.waitUntil`, its outcome discarded. -/
def scheduledLimited (w : World) (s : Store) : RunResult :=
  match w.reposResp with
  | .netError => ⟨s, false, 0⟩
  | .resp ok body =>
    if !ok then ⟨s, false, 0⟩
    else
      match body with
      | none => ⟨s, false, 0⟩
      | some reposField =>
        let repos := reposField.getD []
        let fo := runFanout w s repos
        if fo.2 then ⟨fo.1, false, 0⟩
        else
          let numeric := numericScores fo.1 repos
          let s2 :=
            if numeric.length = 0 then fo.1
            else kvPut fo.1 "pdsAccessibilityScore"
              (.num (toFixed2 (numeric.sum / (numeric.length : ℚ))))
          let s3 := kvPut s2 "lastUpdated" (.text w.now)
          ⟨s3, true, 1⟩

/-- The repositories of the listing when the List step succeeded, `[]`
otherwise (`apiObj.repos || []`). -/
def listedRepos (w : World) : List Repo :=
  match w.reposResp with
  | .resp true (some b) => b.getD []
  | _ => []

/-!
Derived views of the fan-out, each proved below to agree with
`processRepo` and `runFanout`: the score a repository task writes this
run (if any), whether the task rejects, and the last write the fan-out
lands on a given key.
-/

/-- The score the fan-out task for `r` writes this run: `some q` exactly
when `r` is active, resolves as participating, and its score fetch
succeeds with a numeric `score` field. -/
def fetchedScore (w : World) (r : Repo) : Option ℚ :=
  if !r.active then none
  else
    match validateParticipation (w.partResp r.did) with
    | .error _ => none
    | .ok participates =>
      if !participates then none
      else
        match w.scoreResp r.did with
        | .resp true (some (some q)) => some q
        | _ => none

/-- Whether the fan-out task for `r` rejects its promise. -/
def repoThrows (w : World) (r : Repo) : Bool :=
  if !r.active then false
  else
    match validateParticipation (w.partResp r.did) with
    | .error _ => true
    | .ok participates =>
      if !participates then false
      else
        match w.scoreResp r.did with
        | .netError => true
        | .resp ok body =>
          if !ok then false
          else
            match body with
            | none => true
            | some none => true
            | some (some _) => false

/-- The last write the fan-out lands on key `k`, if any. -/
def fanoutWrite (w : World) : List Repo → String → Option StoredVal
  | [], _ => none
  | r :: rs, k =>
    match fanoutWrite w rs k with
    | some v => some v
    | none => if k = r.did then (fetchedScore w r).map StoredVal.num else none

/-!
Basic lemmas about the store and the fan-out.
-/

theorem kvGet_put (s : Store) (k k' : String) (v : StoredVal) :
    kvGet (kvPut s k v) k' = if k' = k then some v else kvGet s k' := by
  rcases eq_or_ne k' k with h | h
  · subst h
    simp [kvGet, kvPut, List.find?]
  · simp only [kvGet, kvPut, List.find?]
    have hb : (k == k') = false := by
      simp [Ne.symm h]
    rw [hb]
    simp [h]

theorem processRepo_fst (w : World) (s : Store) (r : Repo) :
    (processRepo w s r).1 =
      match fetchedScore w r with
      | some q => kvPut s r.did (StoredVal.num q)
      | none => s := by
  unfold processRepo fetchedScore
  cases r.active
  · rfl
  · cases validateParticipation (w.partResp r.did) with
    | error e => rfl
    | ok participates =>
      cases participates
      · rfl
      · cases w.scoreResp r.did with
        | netError => rfl
        | resp ok body =>
          cases ok
          · rfl
          · match body with
            | none => rfl
            | some none => rfl
            | some (some q) => rfl

theorem processRepo_snd (w : World) (s : Store) (r : Repo) :
    (processRepo w s r).2 = repoThrows w r := by
  unfold processRepo repoThrows
  cases r.active
  · rfl
  · cases validateParticipation (w.partResp r.did) with
    | error e => rfl
    | ok participates =>
      cases participates
      · rfl
      · cases w.scoreResp r.did with
        | netError => rfl
        | resp ok body =>
          cases ok
          · rfl
          · match body with
            | none => rfl
            | some none => rfl
            | some (some q) => rfl

theorem runFanout_snd (w : World) :
    ∀ (rs : List Repo) (s : Store),
      (runFanout w s rs).2 = rs.any (fun r => repoThrows w r)
  | [], s => rfl
  | r :: rs, s => by
    simp only [runFanout, List.any_cons]
    rw [runFanout_snd w rs, processRepo_snd]

theorem runFanout_get_of_none (w : World) :
    ∀ (rs : List Repo) (s : Store) (k : String),
      fanoutWrite w rs k = none →
      kvGet (runFanout w s rs).1 k = kvGet s k
  | [], s, k, _ => rfl
  | r :: rs, s, k, h => by
    simp only [fanoutWrite] at h
    rcases hw : fanoutWrite w rs k with _ | v
    · rw [hw] at h
      simp only [runFanout]
      rw [runFanout_get_of_none w rs _ k hw, processRepo_fst]
      rcases hf : fetchedScore w r with _ | q
      · rfl
      · rw [hf] at h
        rcases eq_or_ne k r.did with hk | hk
        · simp [hk] at h
        · rw [kvGet_put]
          simp [hk]
    · rw [hw] at h
      exact absurd h (by simp)

theorem runFanout_get_of_write (w : World) :
    ∀ (rs : List Repo) (s : Store) (k : String) (v : StoredVal),
      fanoutWrite w rs k = some v →
      kvGet (runFanout w s rs).1 k = some v
  | [], _, _, _, h => by simp [fanoutWrite] at h
  | r :: rs, s, k, v, h => by
    simp only [fanoutWrite] at h
    rcases hw : fanoutWrite w rs k with _ | v'
    · rw [hw] at h
      simp only [runFanout]
      rcases eq_or_ne k r.did with hk | hk
      · rcases hf : fetchedScore w r with _ | q
        · rw [hf] at h
          simp [hk] at h
        · rw [hf] at h
          simp only [hk, if_true, eq_self_iff_true, if_pos, Option.map_some,
            Option.some.injEq] at h
          rw [runFanout_get_of_none w rs _ k hw, processRepo_fst, hf, hk, kvGet_put]
          simp
          simpa using h
      · simp [hk] at h
    · rw [hw] at h
      simp only [runFanout]
      rw [runFanout_get_of_write w rs _ k v' hw]
      simp at h
      rw [h]

theorem fanoutWrite_eq_none (w : World) :
    ∀ (rs : List Repo) (k : String),
      (∀ r ∈ rs, r.did = k → fetchedScore w r = none) →
      fanoutWrite w rs k = none
  | [], k, _ => rfl
  | r :: rs, k, h => by
    simp only [fanoutWrite]
    rw [fanoutWrite_eq_none w rs k (fun x hx => h x (List.mem_cons_of_mem r hx))]
    rcases eq_or_ne k r.did with hk | hk
    · rw [h r (List.mem_cons_self r rs) hk.symm]
      simp [hk]
    · simp [hk]

/-!
Shape lemmas: the result of a run in each of its control-flow cases.
-/

theorem scheduled_netError (w : World) (s : Store) (h : w.reposResp = .netError) :
    scheduled w s = ⟨s, false, 0⟩ := by
  unfold scheduled; rw [h]

theorem scheduled_notOk (w : World) (s : Store) (b : Option (Option (List Repo)))
    (h : w.reposResp = .resp false b) :
    scheduled w s = ⟨s, false, 0⟩ := by
  unfold scheduled; rw [h]; rfl

theorem scheduled_malformed (w : World) (s : Store) (h : w.reposResp = .resp true none) :
    scheduled w s = ⟨s, false, 0⟩ := by
  unfold scheduled; rw [h]; rfl

theorem scheduled_of_throw (w : World) (s : Store) (b : Option (List Repo))
    (h : w.reposResp = .resp true (some b))
    (ht : (runFanout w s (b.getD [])).2 = true) :
    scheduled w s = ⟨(runFanout w s (b.getD [])).1, false, 0⟩ := by
  unfold scheduled; rw [h]; simp [ht]

theorem scheduled_of_ok (w : World) (s : Store) (b : Option (List Repo))
    (h : w.reposResp = .resp true (some b))
    (ht : (runFanout w s (b.getD [])).2 = false) :
    scheduled w s =
      ⟨kvPut (kvPut (runFanout w s (b.getD [])).1 "pdsAccessibilityScore"
          (if (numericScores (runFanout w s (b.getD [])).1 (b.getD [])).length = 0 then
            .text "NaN"
          else
            .num (toFixed2 ((numericScores (runFanout w s (b.getD [])).1 (b.getD [])).sum /
              ((numericScores (runFanout w s (b.getD [])).1 (b.getD [])).length : ℚ)))))
          "lastUpdated" (.text w.now),
        (notifyDiscord w.notifyResp).toBool, 1⟩ := by
  unfold scheduled; rw [h]; simp [ht]

theorem scheduledLimited_netError (w : World) (s : Store) (h : w.reposResp = .netError) :
    scheduledLimited w s = ⟨s, false, 0⟩ := by
  unfold scheduledLimited; rw [h]

theorem scheduledLimited_notOk (w : World) (s : Store) (b : Option (Option (List Repo)))
    (h : w.reposResp = .resp false b) :
    scheduledLimited w s = ⟨s, false, 0⟩ := by
  unfold scheduledLimited; rw [h]; rfl

theorem scheduledLimited_malformed (w : World) (s : Store)
    (h : w.reposResp = .resp true none) :
    scheduledLimited w s = ⟨s, false, 0⟩ := by
  unfold scheduledLimited; rw [h]; rfl

theorem scheduledLimited_of_throw (w : World) (s : Store) (b : Option (List Repo))
    (h : w.reposResp = .resp true (some b))
    (ht : (runFanout w s (b.getD [])).2 = true) :
    scheduledLimited w s = ⟨(runFanout w s (b.getD [])).1, false, 0⟩ := by
  unfold scheduledLimited; rw [h]; simp [ht]

theorem scheduledLimited_of_ok (w : World) (s : Store) (b : Option (List Repo))
    (h : w.reposResp = .resp true (some b))
    (ht : (runFanout w s (b.getD [])).2 = false) :
    scheduledLimited w s =
      ⟨kvPut
          (if (numericScores (runFanout w s (b.getD [])).1 (b.getD [])).length = 0 then
            (runFanout w s (b.getD [])).1
          else
            kvPut (runFanout w s (b.getD [])).1 "pdsAccessibilityScore"
              (.num (toFixed2 ((numericScores (runFanout w s (b.getD [])).1 (b.getD [])).sum /
                ((numericScores (runFanout w s (b.getD [])).1 (b.getD [])).length : ℚ)))))
          "lastUpdated" (.text w.now),
        true, 1⟩ := by
  unfold scheduledLimited; rw [h]; simp [ht]

/-!
Congruence lemmas: the fan-out and its views depend only on the
participation and score responses of the world.
-/

theorem processRepo_congr (w w2 : World) (hp : w2.partResp = w.partResp)
    (hs : w2.scoreResp = w.scoreResp) (s : Store) (r : Repo) :
    processRepo w2 s r = processRepo w s r := by
  unfold processRepo; rw [hp, hs]

theorem repoThrows_congr (w w2 : World) (hp : w2.partResp = w.partResp)
    (hs : w2.scoreResp = w.scoreResp) (r : Repo) :
    repoThrows w2 r = repoThrows w r := by
  unfold repoThrows; rw [hp, hs]

theorem runFanout_congr (w w2 : World) (hp : w2.partResp = w.partResp)
    (hs : w2.scoreResp = w.scoreResp) :
    ∀ (rs : List Repo) (s : Store), runFanout w2 s rs = runFanout w s rs
  | [], _ => rfl
  | r :: rs, s => by
    simp only [runFanout]
    rw [processRepo_congr w w2 hp hs, runFanout_congr w w2 hp hs rs]

/-!
Lemmas about `validateParticipation`.
-/

theorem validateParticipation_notOk (body : Option (List (String × JsVal))) :
    validateParticipation (.resp false body) = .ok true := by
  cases body <;> simp [validateParticipation]

theorem validateParticipation_ok (rd : List (String × JsVal)) :
    validateParticipation (.resp true (some rd)) =
      (if isUndefined (resolvePreference rd) then Except.ok true
       else Except.ok (strictEqTrue (resolvePreference rd))) := rfl

theorem validateParticipation_error_cases (x : Fetched (List (String × JsVal))) (e : Unit)
    (h : validateParticipation x = .error e) :
    x = .netError ∨ x = .resp true none := by
  match x with
  | .netError => exact Or.inl rfl
  | .resp false body =>
    rw [validateParticipation_notOk] at h
    exact absurd h (by simp)
  | .resp true none => exact Or.inr rfl
  | .resp true (some rd) =>
    rw [validateParticipation_ok] at h
    exact absurd h (by by_cases hu : isUndefined (resolvePreference rd) <;> simp [hu])

/-!
Claim theorems.
-/

/-- Claim C4: when the repository-listing call returns a non-success
response, the run (in either revision) terminates Aborted, the store is
byte-for-byte the prior store (no writes), and the notification sink is
never invoked. -/
theorem claim4_listing_failure_aborts (w : World) (s : Store)
    (b : Option (Option (List Repo))) (h : w.reposResp = .resp false b) :
    scheduled w s = ⟨s, false, 0⟩ ∧ scheduledLimited w s = ⟨s, false, 0⟩ :=
  ⟨scheduled_notOk w s b h, scheduledLimited_notOk w s b h⟩

/-- Witness for C4 at a concrete world: a 500 listing response leaves a
one-entry prior store untouched, ends Aborted, and never calls the sink. -/
theorem claim4_witness :
    scheduled
      { reposResp := .resp false none
        partResp := fun _ => .netError
        scoreResp := fun _ => .netError
        notifyResp := .resp true (some ())
        now := "2026-02-03T00:00:00.000Z" }
      [("A", .num 50)] = ⟨[("A", .num 50)], false, 0⟩ :=
  (claim4_listing_failure_aborts _ _ none rfl).1

/-- Claim C5: in the semaphore revision the notification is fire-and-forget:
two worlds that agree on everything except the notification response give
byte-for-byte the same run result (so a notification failure is never
propagated and cannot affect the terminal state or the store), the sink is
invoked exactly once on a completed run and never otherwise (no retry), and
at most once in any run. -/
theorem claim5_notify_decoupled (w : World) (s : Store) :
    (∀ w2 : World, w2.reposResp = w.reposResp → w2.partResp = w.partResp →
      w2.scoreResp = w.scoreResp → w2.now = w.now →
      scheduledLimited w2 s = scheduledLimited w s)
    ∧ ((scheduledLimited w s).completed = true ↔ (scheduledLimited w s).notifyCalls = 1)
    ∧ (scheduledLimited w s).notifyCalls ≤ 1 := by
  refine ⟨fun w2 h1 h2 h3 h4 => ?_, ?_, ?_⟩
  · rcases hw : w.reposResp with _ | ⟨ok, body⟩
    · rw [scheduledLimited_netError w s hw, scheduledLimited_netError w2 s (h1.trans hw)]
    · cases ok
      · rw [scheduledLimited_notOk w s body hw, scheduledLimited_notOk w2 s body (h1.trans hw)]
      · cases body with
        | none =>
          rw [scheduledLimited_malformed w s hw, scheduledLimited_malformed w2 s (h1.trans hw)]
        | some b =>
          have hfan := runFanout_congr w w2 h2 h3 (b.getD []) s
          by_cases ht : (runFanout w s (b.getD [])).2 = true
          · rw [scheduledLimited_of_throw w s b hw ht,
              scheduledLimited_of_throw w2 s b (h1.trans hw) (by rw [hfan]; exact ht), hfan]
          · rw [scheduledLimited_of_ok w s b hw (by simpa using ht),
              scheduledLimited_of_ok w2 s b (h1.trans hw) (by rw [hfan]; simpa using ht),
              hfan, h4]
  all_goals
    rcases hw : w.reposResp with _ | ⟨ok, body⟩
    · rw [scheduledLimited_netError w s hw]; simp
    · cases ok
      · rw [scheduledLimited_notOk w s body hw]; simp
      · cases body with
        | none => rw [scheduledLimited_malformed w s hw]; simp
        | some b =>
          by_cases ht : (runFanout w s (b.getD [])).2 = true
          · rw [scheduledLimited_of_throw w s b hw ht]; simp
          · rw [scheduledLimited_of_ok w s b hw (by simpa using ht)]; try simp

/-- Witness for C5 at a concrete world: replacing a successful notification
response by a rejected one changes nothing in the run result. -/
theorem claim5_witness :
    scheduledLimited
      { reposResp := .resp true (some (some []))
        partResp := fun _ => .netError
        scoreResp := fun _ => .netError
        notifyResp := .netError
        now := "2026-02-03T00:00:00.000Z" }
      [] =
    scheduledLimited
      { reposResp := .resp true (some (some []))
        partResp := fun _ => .netError
        scoreResp := fun _ => .netError
        notifyResp := .resp true (some ())
        now := "2026-02-03T00:00:00.000Z" }
      [] :=
  (claim5_notify_decoupled
    { reposResp := .resp true (some (some []))
      partResp := fun _ => .netError
      scoreResp := fun _ => .netError
      notifyResp := .resp true (some ())
      now := "2026-02-03T00:00:00.000Z" }
    []).1
    { reposResp := .resp true (some (some []))
      partResp := fun _ => .netError
      scoreResp := fun _ => .netError
      notifyResp := .netError
      now := "2026-02-03T00:00:00.000Z" }
    rfl rfl rfl rfl

/-- Participation record whose resolved preference is the JSON `null`:
a defined value that is neither `true` nor `false`. -/
def rdNullPref : List (String × JsVal) :=
  [("value", .obj [("pdsPreferences", .obj [("accessibilityScoring", JsVal.null)])])]

/-- Counterexample to claim C6 as stated: a lookup that fails at the
network level, and a successful lookup with a malformed body, do not
resolve to Participates — `validateParticipation` raises instead; and a
successful lookup whose preference is `null` (not the explicit boolean
`false`) resolves to Opted-out, contradicting the final clause of the
claim. -/
theorem claim6_counterexample :
    validateParticipation .netError ≠ .ok true
    ∧ validateParticipation (.resp true none) ≠ .ok true
    ∧ validateParticipation (.resp true (some rdNullPref)) = .ok false := by
  refine ⟨fun h => ?_, fun h => ?_, rfl⟩ <;> simp [validateParticipation] at h

/-- Claim C6 as amended: a lookup returning any non-success response
(body parsed with a RecordNotFound marker, parsed otherwise, or
malformed) resolves to Participates, and so does a successful lookup with
no defined preference; a successful lookup with a defined preference
resolves to participation exactly when the preference is the boolean
`true`; a network-level rejection and a malformed body on a successful
response raise instead of resolving. -/
theorem claim6_amended :
    (∀ body, validateParticipation (.resp false body) = .ok true)
    ∧ (∀ rd, isUndefined (resolvePreference rd) = true →
        validateParticipation (.resp true (some rd)) = .ok true)
    ∧ (∀ rd, isUndefined (resolvePreference rd) = false →
        validateParticipation (.resp true (some rd)) =
          .ok (strictEqTrue (resolvePreference rd)))
    ∧ validateParticipation .netError = .error ()
    ∧ validateParticipation (.resp true none) = .error () := by
  refine ⟨validateParticipation_notOk, fun rd h => ?_, fun rd h => ?_, rfl, rfl⟩ <;>
    (rw [validateParticipation_ok]; simp [h])

/-- Witness for C6 as amended, at concrete inputs: a non-success response
with a RecordNotFound body resolves to Participates, and a record with no
preference field resolves to Participates. -/
theorem claim6_witness :
    validateParticipation (.resp false (some [("error", JsVal.str "RecordNotFound")])) = .ok true
    ∧ validateParticipation (.resp true (some [("value", JsVal.obj [])])) = .ok true :=
  ⟨claim6_amended.1 (some [("error", JsVal.str "RecordNotFound")]),
   claim6_amended.2.1 [("value", JsVal.obj [])] (by decide)⟩

/-- Claim C10: on a successful lookup, a defined preference value that is
not the boolean `true` (a string, a number, `null`, `false`, an object)
resolves to non-participation; the boolean `true` is the only defined value
that resolves to participation; and a repository whose lookup resolves to
non-participation writes no score this run. -/
theorem claim10_nontrue_preference_excludes :
    (∀ rd, isUndefined (resolvePreference rd) = false →
      strictEqTrue (resolvePreference rd) = false →
      validateParticipation (.resp true (some rd)) = .ok false)
    ∧ (∀ rd, strictEqTrue (resolvePreference rd) = true →
      validateParticipation (.resp true (some rd)) = .ok true)
    ∧ (∀ (w : World) (r : Repo),
        validateParticipation (w.partResp r.did) = .ok false → fetchedScore w r = none) := by
  refine ⟨fun rd h1 h2 => ?_, fun rd h => ?_, fun w r h => ?_⟩
  · rw [validateParticipation_ok]; simp [h1, h2]
  · have h1 : isUndefined (resolvePreference rd) = false := by
      cases hp : resolvePreference rd <;> (rw [hp] at h; simp [strictEqTrue] at h; try rfl)
    rw [validateParticipation_ok]; simp [h1, h]
  · unfold fetchedScore
    cases r.active
    · rfl
    · rw [h]; rfl

/-- Witness for C10 at a concrete input: the string "true" as preference
value resolves to non-participation. -/
theorem claim10_witness :
    validateParticipation
      (.resp true
        (some [("value",
          JsVal.obj [("pdsPreferences",
            JsVal.obj [("accessibilityScoring", JsVal.str "true")])])])) = .ok false :=
  claim10_nontrue_preference_excludes.1
    [("value", JsVal.obj [("pdsPreferences",
      JsVal.obj [("accessibilityScoring", JsVal.str "true")])])]
    (by decide) (by decide)

/-- Putting a key preserves presence of any key. -/
theorem kvGet_put_isSome (s : Store) (k : String) (v : StoredVal) (d : String)
    (h : (kvGet s d).isSome = true) : (kvGet (kvPut s k v) d).isSome = true := by
  rw [kvGet_put]
  split
  · rfl
  · exact h

/-- The fan-out preserves presence of any key (it never deletes). -/
theorem runFanout_isSome (w : World) (rs : List Repo) (s : Store) (d : String)
    (h : (kvGet s d).isSome = true) :
    (kvGet (runFanout w s rs).1 d).isSome = true := by
  rcases hw : fanoutWrite w rs d with _ | v
  · rw [runFanout_get_of_none w rs s d hw]; exact h
  · rw [runFanout_get_of_write w rs s d v hw]; rfl

/-- World of the C1 spec scenario: the listing returns an active `A` and an
inactive `B`, the prior store is empty, `A` has no opt-out record and its
score fetch returns `score: 80`. -/
def wC1 : World :=
  { reposResp := .resp true (some (some [⟨"A", true⟩, ⟨"B", false⟩]))
    partResp := fun _ => .resp true (some [])
    scoreResp := fun _ => .resp true (some (some 80))
    notifyResp := .resp true (some ())
    now := "2026-02-03T00:00:00.000Z" }

/-- Claim C1, evaluated at the failing input of the spec scenario: because
`Number(null)` is `0` and `0` passes the `isNaN` filter, the inactive `B`
(which has no stored score) contributes `0` to the mean, so both revisions
store `40.00`, not the `80.00` the specification requires; the per-did
entries themselves are as the scenario expects. -/
theorem claim1_missing_score_counts_zero :
    kvGet (scheduledLimited wC1 []).store "pdsAccessibilityScore" = some (.num 40)
    ∧ kvGet (scheduled wC1 []).store "pdsAccessibilityScore" = some (.num 40)
    ∧ kvGet (scheduledLimited wC1 []).store "A" = some (.num 80)
    ∧ kvGet (scheduledLimited wC1 []).store "B" = none
    ∧ StoredVal.num 40 ≠ StoredVal.num 80 := by
  refine ⟨?_, ?_, ?_, ?_, ?_⟩ <;>
    · simp [scheduled, scheduledLimited, wC1, runFanout, processRepo, validateParticipation,
        resolvePreference, jsGetField, jsTruthy, isUndefined, strictEqTrue, isRecordNotFound,
        numericScores, jsNumber, kvGet, kvPut, toFixed2]
      try norm_num

/-- Claim C2: in the semaphore revision, a run whose aggregate step obtains
zero numeric scores leaves the reserved aggregate key at its prior value
while still writing the fresh timestamp. -/
theorem claim2_empty_average_preserves_aggregate (w : World) (s : Store)
    (b : Option (List Repo))
    (hrr : w.reposResp = .resp true (some b))
    (hnothrow : (runFanout w s (b.getD [])).2 = false)
    (hzero : numericScores (runFanout w s (b.getD [])).1 (b.getD []) = [])
    (hres : ∀ r ∈ b.getD [], r.did ≠ "pdsAccessibilityScore") :
    kvGet (scheduledLimited w s).store "pdsAccessibilityScore" =
      kvGet s "pdsAccessibilityScore"
    ∧ kvGet (scheduledLimited w s).store "lastUpdated" = some (.text w.now) := by
  have hstore : (scheduledLimited w s).store =
      kvPut (runFanout w s (b.getD [])).1 "lastUpdated" (.text w.now) := by
    rw [scheduledLimited_of_ok w s b hrr hnothrow, hzero]
    simp
  rw [hstore]
  constructor
  · rw [kvGet_put, if_neg (by decide)]
    exact runFanout_get_of_none w (b.getD []) s _
      (fanoutWrite_eq_none w (b.getD []) _ (fun r hr hd => absurd hd (hres r hr)))
  · rw [kvGet_put, if_pos rfl]

/-- Witness for C2 at a concrete world: an empty listing with a stored
prior aggregate of 50 keeps the aggregate and advances the timestamp. -/
theorem claim2_witness :
    kvGet
      (scheduledLimited
        { reposResp := .resp true (some (some []))
          partResp := fun _ => .netError
          scoreResp := fun _ => .netError
          notifyResp := .resp true (some ())
          now := "2026-02-04T00:00:00.000Z" }
        [("pdsAccessibilityScore", .num 50)]).store "pdsAccessibilityScore" =
      kvGet [("pdsAccessibilityScore", StoredVal.num 50)] "pdsAccessibilityScore"
    ∧ kvGet
      (scheduledLimited
        { reposResp := .resp true (some (some []))
          partResp := fun _ => .netError
          scoreResp := fun _ => .netError
          notifyResp := .resp true (some ())
          now := "2026-02-04T00:00:00.000Z" }
        [("pdsAccessibilityScore", .num 50)]).store "lastUpdated" =
      some (.text "2026-02-04T00:00:00.000Z") :=
  claim2_empty_average_preserves_aggregate _ _ (some []) rfl rfl rfl (by simp)

/-- World of the C3 counterexample: the listing succeeds with two active
repositories; the score response for `A` is a success whose body is
malformed JSON, while `B` succeeds with `score: 70`. -/
def wC3 : World :=
  { reposResp := .resp true (some (some [⟨"A", true⟩, ⟨"B", true⟩]))
    partResp := fun _ => .resp true (some [])
    scoreResp := fun d => if d = "A" then .resp true none else .resp true (some (some 70))
    notifyResp := .resp true (some ())
    now := "2026-02-03T00:00:00.000Z" }

/-- Counterexample to claim C3 as stated: the listing step succeeded, yet
the malformed payload of the one score fetch rejects the whole fan-out
and aborts the run — the aggregate step never executes (no timestamp is
written) and the sink is never invoked, so listing failure is not the only
run-wide abort condition. -/
theorem claim3_counterexample :
    wC3.reposResp = .resp true (some (some [⟨"A", true⟩, ⟨"B", true⟩]))
    ∧ (scheduledLimited wC3 []).completed = false
    ∧ (scheduledLimited wC3 []).notifyCalls = 0
    ∧ kvGet (scheduledLimited wC3 []).store "lastUpdated" = none := by
  refine ⟨rfl, ?_, ?_, ?_⟩ <;> decide

/-- Claim C3 as amended: given a successful listing, the run completes if
and only if no repository task rejects, and a task can only reject when
its participation lookup rejects at the network level or returns a
success response with a malformed body, or its score fetch rejects at the
network level, returns a success response with a malformed body, or
returns a success response whose `score` field is missing — in
particular, non-success participation or score responses never abort the
run. -/
theorem claim3_amended (w : World) (s : Store) (b : Option (List Repo))
    (hrr : w.reposResp = .resp true (some b)) :
    ((scheduledLimited w s).completed = true ↔ ∀ r ∈ b.getD [], repoThrows w r = false)
    ∧ (∀ r : Repo, repoThrows w r = true →
        w.partResp r.did = .netError ∨ w.partResp r.did = .resp true none ∨
        w.scoreResp r.did = .netError ∨ w.scoreResp r.did = .resp true none ∨
        w.scoreResp r.did = .resp true (some none)) := by
  constructor
  · by_cases ht : (runFanout w s (b.getD [])).2 = true
    · rw [scheduledLimited_of_throw w s b hrr ht]
      rw [runFanout_snd, List.any_eq_true] at ht
      obtain ⟨r, hr, hthrow⟩ := ht
      simp only [Bool.false_eq_true, false_iff]
      intro hall
      rw [hall r hr] at hthrow
      exact absurd hthrow (by simp)
    · have ht' : (runFanout w s (b.getD [])).2 = false := by simpa using ht
      rw [scheduledLimited_of_ok w s b hrr ht']
      rw [runFanout_snd, List.any_eq_false] at ht'
      simpa using ht'
  · intro r h
    unfold repoThrows at h
    cases hA : r.active
    · rw [hA] at h
      simp at h
    · rw [hA] at h
      simp only [Bool.not_true, Bool.false_eq_true, if_false] at h
      rcases hv : validateParticipation (w.partResp r.did) with e | p
      · rcases validateParticipation_error_cases _ e hv with hc | hc
        · exact Or.inl hc
        · exact Or.inr (Or.inl hc)
      · rw [hv] at h
        cases p
        · simp at h
        · rcases hs : w.scoreResp r.did with _ | ⟨ok, body⟩
          · exact Or.inr (Or.inr (Or.inl rfl))
          · cases ok
            · rw [hs] at h
              simp at h
            · cases body with
              | none => exact Or.inr (Or.inr (Or.inr (Or.inl rfl)))
              | some sb =>
                cases sb with
                | none => exact Or.inr (Or.inr (Or.inr (Or.inr rfl)))
                | some q =>
                  rw [hs] at h
                  simp at h

/-- Witness for C3 as amended: a run whose only repository gets a
non-success (500) score response still completes. -/
theorem claim3_witness :
    (scheduledLimited
      { reposResp := .resp true (some (some [⟨"C", true⟩]))
        partResp := fun _ => .resp false none
        scoreResp := fun _ => .resp false none
        notifyResp := .resp true (some ())
        now := "2026-02-03T00:00:00.000Z" }
      []).completed = true :=
  (claim3_amended
    { reposResp := .resp true (some (some [⟨"C", true⟩]))
      partResp := fun _ => .resp false none
      scoreResp := fun _ => .resp false none
      notifyResp := .resp true (some ())
      now := "2026-02-03T00:00:00.000Z" }
    [] (some [⟨"C", true⟩]) rfl).1.mpr (by decide)

/-- Claim C7: a Score Store entry whose did is not one of the two reserved
keys changes only when a fan-out task for that did succeeds this run — if
every listed occurrence of the did is skipped (inactive, opted out,
failed or rejected fetch), the entry is exactly its prior value; and no
run ever deletes a present entry. -/
theorem claim7_skip_preserves_entry (w : World) (s : Store) (d : String) :
    ((d ≠ "pdsAccessibilityScore" → d ≠ "lastUpdated" →
      (∀ r ∈ listedRepos w, r.did = d → fetchedScore w r = none) →
      kvGet (scheduled w s).store d = kvGet s d))
    ∧ ((kvGet s d).isSome = true → (kvGet (scheduled w s).store d).isSome = true) := by
  have hlist : ∀ bb : Option (List Repo),
      w.reposResp = .resp true (some bb) → listedRepos w = bb.getD [] := by
    intro bb hbb
    unfold listedRepos
    rw [hbb]
  constructor
  · intro h1 h2 h3
    rcases hw : w.reposResp with _ | ⟨ok, body⟩
    · rw [scheduled_netError w s hw]
    · cases ok
      · rw [scheduled_notOk w s body hw]
      · cases body with
        | none => rw [scheduled_malformed w s hw]
        | some b =>
          have hfw : fanoutWrite w (b.getD []) d = none :=
            fanoutWrite_eq_none w (b.getD []) d
              (fun r hr hd => h3 r (by rw [hlist b hw]; exact hr) hd)
          by_cases ht : (runFanout w s (b.getD [])).2 = true
          · rw [scheduled_of_throw w s b hw ht]
            exact runFanout_get_of_none w (b.getD []) s d hfw
          · rw [scheduled_of_ok w s b hw (by simpa using ht)]
            dsimp only
            rw [kvGet_put, if_neg h2, kvGet_put, if_neg h1]
            exact runFanout_get_of_none w (b.getD []) s d hfw
  · intro h
    rcases hw : w.reposResp with _ | ⟨ok, body⟩
    · rw [scheduled_netError w s hw]; exact h
    · cases ok
      · rw [scheduled_notOk w s body hw]; exact h
      · cases body with
        | none => rw [scheduled_malformed w s hw]; exact h
        | some b =>
          by_cases ht : (runFanout w s (b.getD [])).2 = true
          · rw [scheduled_of_throw w s b hw ht]
            exact runFanout_isSome w (b.getD []) s d h
          · rw [scheduled_of_ok w s b hw (by simpa using ht)]
            dsimp only
            exact kvGet_put_isSome _ _ _ _ (kvGet_put_isSome _ _ _ _
              (runFanout_isSome w (b.getD []) s d h))

/-- World of the C7 witness: a single active repository that has opted out
(explicit `false` preference), with a previously stored score of 99. -/
def wC7 : World :=
  { reposResp := .resp true (some (some [⟨"A", true⟩]))
    partResp := fun _ => .resp true
      (some [("value", .obj [("pdsPreferences", .obj [("accessibilityScoring", JsVal.bool false)])])])
    scoreResp := fun _ => .resp true (some (some 10))
    notifyResp := .resp true (some ())
    now := "2026-02-03T00:00:00.000Z" }

/-- Witness for C7 at a concrete world: the opted-out repository keeps its
stale stored score of 99. -/
theorem claim7_witness :
    kvGet (scheduled wC7 [("A", .num 99)]).store "A" =
      kvGet [("A", StoredVal.num 99)] "A" :=
  (claim7_skip_preserves_entry wC7 [("A", .num 99)] "A").1
    (by decide) (by decide) (by decide)

/-- Re-running the fan-out from any base store that already agrees with
the first fan-out on a key gives the same value at that key: the write (if
any) is repeated, and absent a write the base value shows through. -/
theorem runFanout_restart (w : World) (rs : List Repo) (s st : Store) (d : String)
    (hst : kvGet st d = kvGet (runFanout w s rs).1 d) :
    kvGet (runFanout w st rs).1 d = kvGet (runFanout w s rs).1 d := by
  rcases hfw : fanoutWrite w rs d with _ | v
  · rw [runFanout_get_of_none w rs st d hfw, hst]
  · rw [runFanout_get_of_write w rs st d v hfw, runFanout_get_of_write w rs s d v hfw]

/-- Claim C9: running the pipeline of `src/index.ts` twice in a row
against an unchanged upstream (same listing, same participation records,
same score responses; the second run may see a different clock and
notification outcome) leaves every key other than `lastUpdated` exactly
as the first run left it — identical per-repository scores and identical
stored aggregate. -/
theorem claim9_idempotent (w w2 : World) (s : Store)
    (hrep : w2.reposResp = w.reposResp)
    (hp : w2.partResp = w.partResp)
    (hs : w2.scoreResp = w.scoreResp)
    (hres : ∀ r ∈ listedRepos w, r.did ≠ "pdsAccessibilityScore" ∧ r.did ≠ "lastUpdated") :
    ∀ k, k ≠ "lastUpdated" →
      kvGet (scheduled w2 (scheduled w s).store).store k =
        kvGet (scheduled w s).store k := by
  intro k hk
  rcases hw : w.reposResp with _ | ⟨ok, body⟩
  · rw [scheduled_netError w s hw, scheduled_netError w2 _ (hrep.trans hw)]
  · cases ok
    · rw [scheduled_notOk w s body hw, scheduled_notOk w2 _ body (hrep.trans hw)]
    · cases body with
      | none => rw [scheduled_malformed w s hw, scheduled_malformed w2 _ (hrep.trans hw)]
      | some b =>
        have hrr2 : w2.reposResp = .resp true (some b) := hrep.trans hw
        have hfan : ∀ st : Store,
            runFanout w2 st (b.getD []) = runFanout w st (b.getD []) :=
          fun st => runFanout_congr w w2 hp hs (b.getD []) st
        have hlist : listedRepos w = b.getD [] := by
          unfold listedRepos
          rw [hw]
        by_cases ht : (runFanout w s (b.getD [])).2 = true
        · rw [scheduled_of_throw w s b hw ht]
          dsimp only
          have ht2 : (runFanout w2 (runFanout w s (b.getD [])).1 (b.getD [])).2 = true := by
            rw [hfan, runFanout_snd]
            rw [runFanout_snd] at ht
            exact ht
          rw [scheduled_of_throw w2 _ b hrr2 ht2]
          dsimp only
          rw [hfan]
          exact runFanout_restart w (b.getD []) s _ k rfl
        · have ht' : (runFanout w s (b.getD [])).2 = false := by simpa using ht
          rw [scheduled_of_ok w s b hw ht']
          dsimp only
          set fo1 := (runFanout w s (b.getD [])).1 with hfo1
          set n1 := numericScores fo1 (b.getD []) with hn1
          set agg1 := (if n1.length = 0 then StoredVal.text "NaN"
            else StoredVal.num (toFixed2 (n1.sum / (n1.length : ℚ)))) with hagg1
          set store1 := kvPut (kvPut fo1 "pdsAccessibilityScore" agg1)
            "lastUpdated" (StoredVal.text w.now) with hstore1
          have ht2 : (runFanout w2 store1 (b.getD [])).2 = false := by
            rw [hfan store1, runFanout_snd]
            rw [runFanout_snd] at ht'
            exact ht'
          rw [scheduled_of_ok w2 store1 b hrr2 ht2]
          dsimp only
          rw [hfan store1]
          have hbase : ∀ d, d ≠ "pdsAccessibilityScore" → d ≠ "lastUpdated" →
              kvGet store1 d = kvGet fo1 d := by
            intro d hd1 hd2
            rw [hstore1, kvGet_put, if_neg hd2, kvGet_put, if_neg hd1]
          have hrestart : ∀ d, d ≠ "pdsAccessibilityScore" → d ≠ "lastUpdated" →
              kvGet (runFanout w store1 (b.getD [])).1 d = kvGet fo1 d := by
            intro d hd1 hd2
            rw [hfo1] at hbase ⊢
            exact runFanout_restart w (b.getD []) s store1 d (hbase d hd1 hd2)
          have hnum : numericScores (runFanout w store1 (b.getD [])).1 (b.getD []) = n1 := by
            rw [hn1]
            unfold numericScores
            refine List.filterMap_congr (fun r hr => ?_)
            obtain ⟨hd1, hd2⟩ := hres r (by rw [hlist]; exact hr)
            rw [hrestart r.did hd1 hd2]
          rw [hnum, ← hagg1]
          rw [hstore1]
          rw [kvGet_put, if_neg hk, kvGet_put, kvGet_put, if_neg hk, kvGet_put]
          by_cases hpds : k = "pdsAccessibilityScore"
          · rw [if_pos hpds, if_pos hpds]
          · rw [if_neg hpds, if_neg hpds]
            exact hrestart k hpds hk

/-- Witness for C9 at a concrete world: one active repository scoring 80,
run twice with different clocks; the stored aggregate of the second run
equals that of the first. -/
theorem claim9_witness :
    kvGet
      (scheduled
        { reposResp := .resp true (some (some [⟨"A", true⟩]))
          partResp := fun _ => .resp true (some [])
          scoreResp := fun _ => .resp true (some (some 80))
          notifyResp := .resp true (some ())
          now := "2026-02-04T00:00:00.000Z" }
        (scheduled
          { reposResp := .resp true (some (some [⟨"A", true⟩]))
            partResp := fun _ => .resp true (some [])
            scoreResp := fun _ => .resp true (some (some 80))
            notifyResp := .resp true (some ())
            now := "2026-02-03T00:00:00.000Z" }
          []).store).store "pdsAccessibilityScore" =
      kvGet
        (scheduled
          { reposResp := .resp true (some (some [⟨"A", true⟩]))
            partResp := fun _ => .resp true (some [])
            scoreResp := fun _ => .resp true (some (some 80))
            notifyResp := .resp true (some ())
            now := "2026-02-03T00:00:00.000Z" }
          []).store "pdsAccessibilityScore" :=
  claim9_idempotent
    { reposResp := .resp true (some (some [⟨"A", true⟩]))
      partResp := fun _ => .resp true (some [])
      scoreResp := fun _ => .resp true (some (some 80))
      notifyResp := .resp true (some ())
      now := "2026-02-03T00:00:00.000Z" }
    { reposResp := .resp true (some (some [⟨"A", true⟩]))
      partResp := fun _ => .resp true (some [])
      scoreResp := fun _ => .resp true (some (some 80))
      notifyResp := .resp true (some ())
      now := "2026-02-04T00:00:00.000Z" }
    [] rfl rfl rfl (by decide) "pdsAccessibilityScore" (by decide)

end AccessWorker
